import Mathlib

/-!
# Verification of the iExcel proposal-generation scripts

Shallow embedding of the proposal-generation batch scripts
(`src/scripts/generate-html.js` and the unnamed variant files
`part_000`, `part_001`, `part_002`) and proofs about the behaviour
the specification claims.

The embedding models:
* JS string primitives used by the scripts (`includes`, `replace` with a
  literal pattern, `toLowerCase`, `trim`, the truthiness of `||` chains);
* the markdown-fence cleanup regexes (both the global and the anchored
  variants);
* the output-filename derivation;
* the Gemini fetch/outcome as an opaque environment
  (`Nat -> FetchResult`, one entry per attempt index);
* the descending-ceiling retry loop of `processProposal`
  (`src/scripts/generate-html.js`, second document, lines 175-240);
* the per-record pipeline (structure validation, finish-reason handling,
  fence cleanup, HTML shape validation, artifact write, result record);
* the batch loops and exit behaviour of the `main` executions of
  `src/scripts/generate-html.js` and of `src/unnamed/part_000`;
* the simplified per-record pipeline of `src/unnamed/part_001`
  (second document), which only warns on invalid HTML;
* the changed-files input selector of `src/unnamed/part_001`
  (first document).

The output store is modelled as an append log of (filename, content)
writes; `readStore` returns the last write for a key
(create-or-overwrite, last-write-wins, like `fs.writeFileSync`).
-/

namespace IExcel

/-! ## JS string primitives -/

/-- Substring test driven by `pat.isPrefixOf`: JS `String.prototype.includes`. -/
def containsSub (pat : List Char) : List Char → Bool
  | [] => pat.isEmpty
  | c :: rest => pat.isPrefixOf (c :: rest) || containsSub pat rest

/-- JS `s.includes(pat)`. -/
def containsStr (s pat : String) : Bool :=
  containsSub pat.data s.data

/-- JS `s.startsWith(pre)`. -/
def strStartsWith (s pre : String) : Bool :=
  pre.data.isPrefixOf s.data

/-- JS `s.endsWith(suf)`. -/
def strEndsWith (s suf : String) : Bool :=
  suf.data.isSuffixOf s.data

/-- JS `s.split(sep)` for a one-character separator, on char lists.
Splitting the empty string yields one empty field, like JS. -/
def splitOnChar (sep : Char) : List Char → List (List Char)
  | [] => [[]]
  | c :: rest =>
    let r := splitOnChar sep rest
    if c = sep then [] :: r
    else (c :: r.headD []) :: r.tail

/-- JS `s.split(sep)` for a one-character separator, on strings. -/
def splitStr (sep : Char) (s : String) : List String :=
  (splitOnChar sep s.data).map String.mk

/-- JS `s.trim()`: drop leading and trailing whitespace. -/
def jsTrim (s : String) : String :=
  ⟨((s.data.dropWhile Char.isWhitespace).reverse.dropWhile
      Char.isWhitespace).reverse⟩

/-- JS `s.replace(pat, repl)` with a *literal* (non-regex) pattern:
replaces only the first occurrence; returns the input unchanged when the
pattern does not occur. -/
def replaceFirstList (pat repl : List Char) : List Char → List Char
  | [] => []
  | c :: rest =>
    if pat.isPrefixOf (c :: rest) then repl ++ (c :: rest).drop pat.length
    else c :: replaceFirstList pat repl rest

/-- JS `s.replace(pat, repl)` for a literal pattern, on `String`. -/
def replaceFirstStr (s pat repl : String) : String :=
  ⟨replaceFirstList pat.data repl.data s.data⟩

/-- JS `s.toLowerCase()` (ASCII; the scripts only feed ASCII names). -/
def lowerStr (s : String) : String :=
  ⟨s.data.map Char.toLower⟩

/-- Whether `c` is an ASCII lowercase letter or digit, i.e. it survives the
`replace(/[^a-z0-9]/g, '')` normalisation. -/
def isLowerAlnum (c : Char) : Bool :=
  (('a' ≤ c) && (c ≤ 'z')) || (('0' ≤ c) && (c ≤ '9'))

/-- JS `s.replace(/[^a-z0-9]/g, '')`: keep only lowercase ASCII
alphanumerics. -/
def keepAlnum (s : String) : String :=
  ⟨s.data.filter isLowerAlnum⟩

/-- JS truthiness of an optional string field: `undefined` and `''` are
falsy. -/
def jsTruthy : Option String → Bool
  | none => false
  | some s => !s.isEmpty

/-- JS `a || b` where `a` is an optional string field and `b` a string. -/
def jsOrStr : Option String → String → String
  | some s, b => if s.isEmpty then b else s
  | none, b => b

/-! ## Proposal records and output-filename derivation -/

/-- The fields of one proposal JSON document that the scripts consult for
naming.  (`content_markdown` etc. only flow into the prompt and are
irrelevant to every claim.) -/
structure ProposalData where
  company_name : Option String
  companyName : Option String
  company : Option String
deriving DecidableEq, Repr

/-- From `src/scripts/generate-html.js` line 291:
`proposalData.company_name || proposalData.companyName || proposalData.company
|| filename.replace('.json', '')`. -/
def companySource (filename : String) (pd : ProposalData) : String :=
  jsOrStr pd.company_name
    (jsOrStr pd.companyName
      (jsOrStr pd.company (replaceFirstStr filename ".json" "")))

/-- From `src/scripts/generate-html.js` line 292:
`companyName.toLowerCase().replace(/[^a-z0-9]/g, '') + '.html'`. -/
def deriveOutputFilename (filename : String) (pd : ProposalData) : String :=
  keepAlnum (lowerStr (companySource filename pd)) ++ ".html"

/-- From `src/unnamed/part_000` line 72 and `src/unnamed/part_001` line 285:
the same chain without the third `company` fallback. -/
def companySource001 (filename : String) (pd : ProposalData) : String :=
  jsOrStr pd.company_name
    (jsOrStr pd.companyName (replaceFirstStr filename ".json" ""))

/-- Output-filename derivation of `part_000` / `part_001` (lines 73 / 286). -/
def deriveOutputFilename001 (filename : String) (pd : ProposalData) : String :=
  keepAlnum (lowerStr (companySource001 filename pd)) ++ ".html"

/-- Fixed publication base used in the scripts' reported URLs. -/
def urlBase : String := "https://iexcelproposal.netlify.app/proposal/"

/-! ## Markdown-fence cleanup

Four distinct regex cleanups occur across the variants; the claims cite
three of them:

* global (`src/scripts/generate-html.js` line 87, `src/unnamed/part_002`
  line 355): `.replace(/```html\n?/g, '').replace(/```\n?/g, '')`;
* anchored (`src/scripts/generate-html.js` lines 269-270):
  `.replace(/^```html\n?/i, '').replace(/\n?```$/i, '')` then `.trim()`;
* exact-wrap (`src/unnamed/part_000` line 69, `src/unnamed/part_001`
  line 277): `.replace(/^```html\n/, '').replace(/\n```$/, '')`.

A JS global replace of a literal-plus-optional-newline pattern scans left
to right, consuming a match (greedily including the optional `\n`) and
resuming right after it; the recursions below mirror that exactly. -/

/-- The backtick character (code point 96). -/
def tickChar : Char := Char.ofNat 96

/-- Global removal of every `/```html\n?/` match. -/
def stripHtmlFences : List Char → List Char
  | a :: b :: c :: d :: e :: f :: g :: rest =>
    if a == tickChar && b == tickChar && c == tickChar &&
        d == 'h' && e == 't' && f == 'm' && g == 'l' then
      match rest with
      | '\n' :: r => stripHtmlFences r
      | r => stripHtmlFences r
    else a :: stripHtmlFences (b :: c :: d :: e :: f :: g :: rest)
  | l => l

/-- Global removal of every `/```\n?/` match. -/
def stripFences : List Char → List Char
  | a :: b :: c :: rest =>
    if a == tickChar && b == tickChar && c == tickChar then
      match rest with
      | '\n' :: r => stripFences r
      | r => stripFences r
    else a :: stripFences (b :: c :: rest)
  | l => l

/-- The global cleanup
`.replace(/```html\n?/g, '').replace(/```\n?/g, '')` of
`src/scripts/generate-html.js` line 87 / `src/unnamed/part_002` line 355
(no trim in those variants). -/
def cleanGlobal (s : String) : String :=
  ⟨stripFences (stripHtmlFences s.data)⟩

/-- Leading `/^```html\n?/i` removal: three backticks, `html` in any case,
an optional newline. -/
def stripLeadHtmlFenceI (l : List Char) : List Char :=
  if ((l.take 7).map Char.toLower) == "```html".data then
    match l.drop 7 with
    | '\n' :: r => r
    | r => r
  else l

/-- Trailing `/\n?```$/i` removal (backticks are caseless, so `/i` is
irrelevant here). -/
def stripTrailFenceOptNL (l : List Char) : List Char :=
  if ("\n```".data).isSuffixOf l then l.take (l.length - 4)
  else if ("```".data).isSuffixOf l then l.take (l.length - 3)
  else l

/-- The anchored cleanup of `src/scripts/generate-html.js` lines 269-270:
`html.replace(/^```html\n?/i, '').replace(/\n?```$/i, '')` followed by
`html.trim()`. -/
def cleanAnchored (s : String) : String :=
  jsTrim (String.mk (stripTrailFenceOptNL (stripLeadHtmlFenceI s.data)))

/-- Leading `/^```html\n/` removal (newline mandatory, case sensitive),
as in `part_000` line 69 / `part_001` line 277. -/
def stripLeadHtmlFenceNL (l : List Char) : List Char :=
  if ("```html\n".data).isPrefixOf l then l.drop 8 else l

/-- Trailing `/\n```$/` removal (newline mandatory). -/
def stripTrailFenceNL (l : List Char) : List Char :=
  if ("\n```".data).isSuffixOf l then l.take (l.length - 4) else l

/-- The exact-wrap cleanup of `part_000` line 69 / `part_001` line 277
(no trim). -/
def cleanExactWrap (s : String) : String :=
  ⟨stripTrailFenceNL (stripLeadHtmlFenceNL s.data)⟩

/-! ## The external generation call

A fetch of the Gemini endpoint either resolves with an HTTP-ok response
carrying a JSON body, resolves with an HTTP error status and error text,
or rejects (network failure / thrown by `fetch` itself).  The JSON body
is abstracted to the three fields the scripts inspect. -/

/-- The parsed JSON body of an HTTP-ok Gemini response:
whether `candidates[0].content` is present, `candidates[0].finishReason`,
and `candidates[0].content.parts[0].text`. -/
structure GeminiResponse where
  hasContent : Bool
  finishReason : Option String
  text : String
deriving DecidableEq, Repr

/-- Result of one `fetch` of the generation endpoint. -/
inductive FetchResult where
  | ok (res : GeminiResponse)
  | httpError (status : Nat) (errorText : String)
  | netError (msg : String)
deriving DecidableEq, Repr

/-- From `src/scripts/generate-html.js` line 180: the descending ceiling
ladder `const tokenLimits = [65000, 32000, 16000]`. -/
def tokenLimits : List Nat := [65000, 32000, 16000]

/-- From `src/scripts/generate-html.js` line 177: `const maxRetries = 2`. -/
def maxRetries : Nat := 2

/-- From `src/scripts/generate-html.js` line 213: the error text / status
test that classifies an HTTP error as a token-limit (size) issue:
`errorText.includes('token') || errorText.includes('limit') ||
errorText.includes('INVALID_ARGUMENT') || response.status === 400`. -/
def isTokenIssue (status : Nat) (errorText : String) : Bool :=
  containsStr errorText "token" || containsStr errorText "limit" ||
  containsStr errorText "INVALID_ARGUMENT" || status == 400

/-- Message of the `Error` thrown at
`src/scripts/generate-html.js` line 221. -/
def geminiApiErrorMsg (status : Nat) : String :=
  "Gemini API error: " ++ toString status

/-- The specification's `Rejected` class for a single fetch result: an
error not attributable to the output-size ceiling — an HTTP error whose
status/body does not look like a token-limit problem, or a plain
transport (network) failure.  A successful HTTP response is never
`Rejected` at the fetch level. -/
def isRejectedFetch : FetchResult → Bool
  | FetchResult.httpError status txt => !(isTokenIssue status txt)
  | FetchResult.netError _ => true
  | FetchResult.ok _ => false

/-! ## The retry loop of `processProposal`
(`src/scripts/generate-html.js` lines 175-240)

```js
for (let i = 0; i < tokenLimits.length && i <= retryAttempt; i++) {
  try {
    response = await fetch(...tokenLimits[i]...);
    if (!response.ok) {
      if (/* token issue */) {
        retryAttempt++;
        if (retryAttempt < maxRetries) continue;
      }
      throw new Error(`Gemini API error: ${response.status}`);
    }
    break;
  } catch (error) {
    if (retryAttempt < maxRetries - 1) { retryAttempt++; continue; }
    else throw error;
  }
}
```

The environment `env : Nat -> FetchResult` gives the result of the fetch
performed at loop index `i` (loop index, ceiling rung and attempt number
coincide in this loop).  The embedding recurses over the suffix of
`tokenLimits` not yet visited, carrying the loop index `i` and
`retryAttempt`, and accumulates the ceilings actually sent.  It returns
the accumulated attempt ceilings together with either
`Except.error msg` (an exception escaped the loop),
`Except.ok (some res)` (`break` on an HTTP-ok response), or
`Except.ok none` (the loop guard ended the loop without a `break`; the
code then throws `'Failed to get valid response from Gemini after all
retries'`, because `response` is either unset or still the last non-ok
response). -/
def runLadder (env : Nat → FetchResult) :
    List Nat → Nat → Nat → List Nat →
    List Nat × Except String (Option GeminiResponse)
  | [], _, _, acc => (acc, Except.ok none)
  | limit :: rest, i, retryAttempt, acc =>
    if i ≤ retryAttempt then
      let acc' := acc ++ [limit]
      match env i with
      | FetchResult.ok res => (acc', Except.ok (some res))
      | FetchResult.httpError status txt =>
        if isTokenIssue status txt then
          -- `retryAttempt++` happens before the `< maxRetries` test
          if retryAttempt + 1 < maxRetries then
            runLadder env rest (i + 1) (retryAttempt + 1) acc'
          else
            -- falls through to `throw`; the catch clause sees the already
            -- incremented counter, `retryAttempt + 1 < maxRetries - 1` is
            -- impossible, so the error propagates
            (acc', Except.error (geminiApiErrorMsg status))
        else
          -- `throw` reaches the catch clause with the unchanged counter
          if retryAttempt < maxRetries - 1 then
            runLadder env rest (i + 1) (retryAttempt + 1) acc'
          else
            (acc', Except.error (geminiApiErrorMsg status))
      | FetchResult.netError msg =>
        -- `fetch` rejected; caught by the catch clause
        if retryAttempt < maxRetries - 1 then
          runLadder env rest (i + 1) (retryAttempt + 1) acc'
        else
          (acc', Except.error msg)
    else (acc, Except.ok none)

/-- The whole retry loop as entered at line 182 of
`src/scripts/generate-html.js` (`i = 0`, `retryAttempt = 0`). -/
def runAttempts (env : Nat → FetchResult) :
    List Nat × Except String (Option GeminiResponse) :=
  runLadder env tokenLimits 0 0 []

/-! ## The per-record pipeline of `src/scripts/generate-html.js`
(second document, `processProposal`, lines 134-316) -/

/-- From `src/scripts/generate-html.js` line 273: the structural HTML check.
Validation *fails* when
`!html.includes('<!DOCTYPE html>') && !html.toLowerCase().includes('<html')`. -/
def htmlValidScripts (html : String) : Bool :=
  containsStr html "<!DOCTYPE html>" || containsStr (lowerStr html) "<html"

/-- The success object returned at lines 306-315 (size in KB omitted:
it is read back from the filesystem and load-bearing for no claim). -/
structure ScriptsSuccess where
  input : String
  output : String
  url : String
  finishReason : String
  hasLogo : Bool
  hasTagline : Bool
deriving DecidableEq, Repr

/-- Per-record outcome: either the success object `processProposal`
returns, or the error message of the exception its caller catches and
converts into a `{input, error, success: false}` summary entry
(lines 332-340). -/
inductive RecResult where
  | ok (info : ScriptsSuccess)
  | err (input : String) (error : String)
deriving DecidableEq, Repr

/-- Whether a per-record result is a failure entry (`success: false`). -/
def RecResult.isErr : RecResult → Bool
  | RecResult.ok _ => false
  | RecResult.err _ _ => true

/-- One record processed by `processProposal` of
`src/scripts/generate-html.js` (lines 134-316).  Returns the per-record
result, the artifact writes performed (at most one `fs.writeFileSync`,
as `(name, content)`), and the ceilings of the generation attempts made.
All failure branches are the `throw`s of the source, surfaced as
`RecResult.err` because `main` catches them (lines 329-340). -/
def processScripts (env : Nat → FetchResult) (filename : String)
    (pd : ProposalData) :
    RecResult × List (String × String) × List Nat :=
  match runAttempts env with
  | (atts, Except.error e) => (RecResult.err filename e, [], atts)
  | (atts, Except.ok none) =>
    (RecResult.err filename
      "Failed to get valid response from Gemini after all retries", [], atts)
  | (atts, Except.ok (some res)) =>
    if res.hasContent = false then
      -- line 245: `!result.candidates || ... || !candidates[0].content`
      (RecResult.err filename "Invalid Gemini response", [], atts)
    else if res.finishReason = some "SAFETY" then
      -- line 260
      (RecResult.err filename "Content was blocked by safety filters", [], atts)
    else
      -- lines 266-270: extract and clean (MAX_TOKENS only warns, line 256)
      let html := cleanAnchored res.text
      if htmlValidScripts html = false then
        -- line 276
        (RecResult.err filename "Invalid HTML output from Gemini", [], atts)
      else
        let name := deriveOutputFilename filename pd
        (RecResult.ok
          { input := filename
            output := name
            url := urlBase ++ name
            finishReason := res.finishReason.getD "STOP"
            hasLogo := containsStr html "iexcel_logo.png"
            hasTagline := containsStr html "Digital Marketing" ||
              containsStr html "Focused On Growth" },
          [(name, html)], atts)

/-! ## Output store -/

/-- The output directory as an append log of writes; `fs.writeFileSync`
is create-or-overwrite, so a read returns the *last* write to a name. -/
abbrev Store := List (String × String)

/-- The content currently stored under `name` (last write wins). -/
def readStore (store : Store) (name : String) : Option String :=
  (store.reverse.find? (fun p => p.1 == name)).map Prod.snd

/-- Apply a list of writes to the store. -/
def applyWrites (store : Store) (writes : List (String × String)) : Store :=
  store ++ writes

/-! ## The batch loop and exit behaviour of `src/scripts/generate-html.js`
(second document, `main`, lines 319-381) -/

/-- The `for (const file of jsonFiles)` loop of lines 328-341: each record
is processed inside its own try/catch, a caught error becomes a
`{input, error, success: false}` entry, and the loop continues.
`env` gives each file's fetch behaviour, `pds` each file's parsed JSON. -/
def runScriptsBatch (env : String → Nat → FetchResult)
    (pds : String → ProposalData) :
    List String → Store → List RecResult × Store
  | [], store => ([], store)
  | f :: rest, store =>
    let step := processScripts (env f) f (pds f)
    let recres := runScriptsBatch env pds rest (applyWrites store step.2.1)
    (step.1 :: recres.1, recres.2)

/-- End-of-run state: whether `generation-summary.json` was written, its
contents, and the process exit code. -/
structure RunOutcome where
  summaryWritten : Bool
  summary : List RecResult
  exitCode : Nat
deriving DecidableEq, Repr

/-- Lines 354-376: the summary is written unconditionally after the loop,
then the process exits 1 iff `results.filter(r => !r.success)` is
non-empty. -/
def scriptsMain (env : String → Nat → FetchResult)
    (pds : String → ProposalData) (files : List String) (store : Store) :
    RunOutcome × Store :=
  let results := (runScriptsBatch env pds files store).1
  ({ summaryWritten := true
     summary := results
     exitCode := if results.any RecResult.isErr then 1 else 0 },
   (runScriptsBatch env pds files store).2)

/-! ## The `src/unnamed/part_000` variant

`processProposal` (lines 22-86): one fetch at a fixed 65000 ceiling, no
retry; an HTTP error throws.  `main` (lines 89-111): the batch loop has
*no* per-record try/catch — the first record whose processing throws
aborts the loop, the summary is never written, and the process exits 1. -/

/-- The `{input, output, url}` object returned at `part_000` lines 81-85. -/
structure Result000 where
  input : String
  output : String
  url : String
deriving DecidableEq, Repr

/-- The `part_000` `processProposal`: returns the result and the single
artifact write, or the message of the exception it throws.
The `hasContent = false` case models the `TypeError` JS raises at line 66
when `result.candidates[0].content.parts[0].text` is absent. -/
def process000 (fr : FetchResult) (filename : String) (pd : ProposalData) :
    Except String (Result000 × String × String) :=
  match fr with
  | FetchResult.httpError status txt =>
    Except.error ("Gemini API error: " ++ toString status ++ " - " ++ txt)
  | FetchResult.netError msg => Except.error msg
  | FetchResult.ok res =>
    if res.hasContent = false then
      Except.error "TypeError: Cannot read properties of undefined"
    else
      let html := cleanExactWrap res.text
      let name := deriveOutputFilename001 filename pd
      Except.ok ({ input := filename, output := name, url := urlBase ++ name },
        name, html)

/-- End-of-run state of a `part_000` run. -/
structure Run000 where
  results : List Result000
  summaryWritten : Bool
  exitCode : Nat
  store : Store
deriving DecidableEq, Repr

/-- The `part_000` `main` (lines 89-111): sequential loop without
per-record catch.  On the first throw the outer catch logs and calls
`process.exit(1)` — the summary write at lines 102-105 is never reached
and the remaining records are never processed.  If every record
succeeds, the summary is written and the process exits 0. -/
def runBatch000 (env : String → FetchResult) (pds : String → ProposalData) :
    List String → Store → List Result000 → Run000
  | [], store, acc =>
    { results := acc, summaryWritten := true, exitCode := 0, store := store }
  | f :: rest, store, acc =>
    match process000 (env f) f (pds f) with
    | Except.ok (r, name, html) =>
      runBatch000 env pds rest (store ++ [(name, html)]) (acc ++ [r])
    | Except.error _ =>
      { results := acc, summaryWritten := false, exitCode := 1, store := store }

/-! ## The `src/unnamed/part_001` (second document) variant

`processProposal` (lines 170-302): fetch at 65000; on an HTTP error whose
text contains `'token'` or `'limit'` or whose status is 400, one retry at
32000; structure validation throws; finish reason only *warns* (no SAFETY
throw); fence cleanup with the exact-wrap regexes; the HTML shape check
only *warns* (line 281) and the artifact is written regardless. -/

/-- From `part_001` line 280: the (warn-only) HTML check; no `toLowerCase`. -/
def htmlValid001 (html : String) : Bool :=
  containsStr html "<!DOCTYPE html>" || containsStr html "<html"

/-- From `part_001` line 226: token-limit detection on the first response
(no `INVALID_ARGUMENT` test in this variant). -/
def isTokenIssue001 (status : Nat) (errorText : String) : Bool :=
  containsStr errorText "token" || containsStr errorText "limit" ||
  status == 400

/-- The `{input, output, url, size, finishReason}` object returned at
`part_001` lines 295-301 (`size` is the byte size `fs.statSync` reports
for the file just written). -/
structure Result001 where
  input : String
  output : String
  url : String
  size : Nat
  finishReason : Option String
deriving DecidableEq, Repr

/-- The `part_001` `processProposal`: `env 0` is the 65000-ceiling fetch,
`env 1` the 32000-ceiling retry fetch.  Returns the result and the
artifact write, or the message of the exception it throws (caught by the
per-record try/catch of `main`, lines 310-320). -/
def process001 (env : Nat → FetchResult) (filename : String)
    (pd : ProposalData) :
    Except String (Result001 × String × String) :=
  let afterFetch : Except String GeminiResponse :=
    match env 0 with
    | FetchResult.ok res => Except.ok res
    | FetchResult.netError msg => Except.error msg
    | FetchResult.httpError status txt =>
      if isTokenIssue001 status txt then
        -- lines 227-247: one retry with `maxOutputTokens: 32000`
        match env 1 with
        | FetchResult.ok res => Except.ok res
        | FetchResult.netError msg => Except.error msg
        | FetchResult.httpError status2 _ =>
          Except.error ("Gemini API retry failed: " ++ toString status2)
      else
        Except.error ("Gemini API error: " ++ toString status ++ " - " ++ txt)
  match afterFetch with
  | Except.error e => Except.error e
  | Except.ok res =>
    if res.hasContent = false then
      -- line 259
      Except.error "Invalid Gemini response"
    else
      -- lines 264-282: finish reason and HTML shape only warn
      let html := cleanExactWrap res.text
      let name := deriveOutputFilename001 filename pd
      Except.ok
        ({ input := filename, output := name, url := urlBase ++ name,
           size := html.utf8ByteSize, finishReason := res.finishReason },
         name, html)

/-! ## The changed-files input selector
(`src/unnamed/part_001`, first document, lines 17-37) -/

/-- JS `path.basename`: the part after the last slash. -/
def pathBasename (p : String) : String :=
  (splitStr '/' p).getLastD p

/-- Lines 21-24: split the `git diff --name-only HEAD~1 HEAD` output on
newlines, keep `data/proposals/*.json` entries, take basenames. -/
def parseChangedOutput (out : String) : List String :=
  ((splitStr '\n' out).filter
    (fun f => strStartsWith f "data/proposals/" && strEndsWith f ".json")).map
    pathBasename

/-- Log line printed at line 26 when git diff succeeds. -/
def detectedMsg (n : Nat) : String :=
  "📝 Detected " ++ toString n ++ " changed proposal(s):"

/-- Log line printed at line 29 when git diff throws. -/
def gitFailMsg : String :=
  "⚠️  Could not detect changes, processing all files..."

/-- Log line printed at line 36 on the empty-changed-set fallback. -/
def fallbackMsg (n : Nat) : String :=
  "📁 Processing all " ++ toString n ++ " proposal(s)"

/-- The "all records" selection used by every all-mode variant
(e.g. `part_001` line 165): `readdirSync(dir).filter(f => f.endsWith('.json'))`.
`storeFiles` is the directory listing in discovery order. -/
def selectAllMode (storeFiles : List String) : List String :=
  storeFiles.filter (fun f => strEndsWith f ".json")

/-- The changed-mode selector of `part_001` lines 17-37: `git` is the
outcome of the `execSync('git diff ...')` call.  Returns the selected
files and the log headers printed (the per-file bullet lines are not
modelled). -/
def selectChangedMode (git : Except String String)
    (storeFiles : List String) : List String × List String :=
  let first :=
    match git with
    | Except.ok out =>
      (parseChangedOutput out, [detectedMsg (parseChangedOutput out).length])
    | Except.error _ => (selectAllMode storeFiles, [gitFailMsg])
  if first.1.isEmpty then
    let all := selectAllMode storeFiles
    (all, first.2 ++ [fallbackMsg all.length])
  else first

/-! ## Helper lemmas about the global fence removal

The key fact behind claim C10: the output of the global second replace
(`stripFences`) never contains three consecutive backticks, so *every*
occurrence of a fence anywhere in the text is destroyed. -/

/-- Unfolding of `stripFences` in the no-match case. -/
theorem stripFences_cons_ne (a b c : Char) (rest : List Char)
    (h : (a == tickChar && b == tickChar && c == tickChar) = false) :
    stripFences (a :: b :: c :: rest) = a :: stripFences (b :: c :: rest) := by
  rw [stripFences.eq_def]
  simp [h]

/-- Whether a char list starts with a backtick. -/
def startsTick : List Char → Bool
  | a :: _ => a == tickChar
  | _ => false

/-- Whether a char list starts with two backticks. -/
def startsTicks2 : List Char → Bool
  | a :: b :: _ => a == tickChar && b == tickChar
  | _ => false

/-- Whether a char list contains three consecutive backticks anywhere. -/
def hasTriple : List Char → Bool
  | a :: b :: c :: rest =>
    (a == tickChar && b == tickChar && c == tickChar) || hasTriple (b :: c :: rest)
  | _ => false

theorem startsTick_stripFences (l : List Char) (h : startsTick l = false) :
    startsTick (stripFences l) = false := by
  match l with
  | [] => simpa [stripFences] using h
  | [a] => simpa [stripFences] using h
  | [a, b] => simpa [stripFences] using h
  | a :: b :: c :: rest =>
    simp only [startsTick] at h
    rw [stripFences_cons_ne a b c rest (by simp [h])]
    simp [startsTick, h]

theorem startsTicks2_stripFences (l : List Char) (h : startsTicks2 l = false) :
    startsTicks2 (stripFences l) = false := by
  match l with
  | [] => simpa [stripFences] using h
  | [a] => simp [stripFences, startsTicks2]
  | [a, b] => simpa [stripFences] using h
  | a :: b :: c :: rest =>
    simp only [startsTicks2, Bool.and_eq_false_iff] at h
    rcases h with h | h
    · rw [stripFences_cons_ne a b c rest (by simp [h])]
      rcases hsf : stripFences (b :: c :: rest) with _ | ⟨x, xs⟩
      · simp [startsTicks2]
      · simp [startsTicks2, h]
    · rw [stripFences_cons_ne a b c rest (by simp [h])]
      have h0 : startsTick (b :: c :: rest) = false := by simp [startsTick, h]
      have h1 := startsTick_stripFences (b :: c :: rest) h0
      rcases hsf : stripFences (b :: c :: rest) with _ | ⟨x, xs⟩
      · simp [startsTicks2]
      · simp only [startsTick, hsf] at h1
        simp [startsTicks2, h1]

theorem hasTriple_cons (a : Char) (xs : List Char) :
    hasTriple (a :: xs) = (((a == tickChar) && startsTicks2 xs) || hasTriple xs) := by
  match xs with
  | [] => simp [hasTriple, startsTicks2]
  | [b] => simp [hasTriple, startsTicks2]
  | b :: c :: ys =>
    cases hA : (a == tickChar) <;> cases hB : (b == tickChar) <;> cases hC : (c == tickChar) <;>
      simp [hasTriple, startsTicks2, hA, hB, hC]

/-- The output of the global fence removal never contains three
consecutive backticks. -/
theorem hasTriple_stripFences (l : List Char) : hasTriple (stripFences l) = false := by
  induction l using stripFences.induct with
  | case1 a b c h r ih =>
    rw [stripFences.eq_def]
    simpa [h] using ih
  | case2 a b c h r hne ih =>
    rw [stripFences.eq_def]
    simp only [h, if_true]
    rcases r with _ | ⟨x, xs⟩
    · simpa using ih
    · by_cases hx : x = '\n'
      · exact ((hne xs (by rw [hx])).elim)
      · simpa [hx] using ih
  | case3 a b c rest h ih =>
    have hcond : (a == tickChar && b == tickChar && c == tickChar) = false :=
      Bool.eq_false_iff.mpr h
    rw [stripFences_cons_ne a b c rest hcond]
    rw [hasTriple_cons]
    simp only [ih, Bool.or_false]
    rcases Bool.and_eq_false_iff.mp hcond with hab | hc
    · rcases Bool.and_eq_false_iff.mp hab with ha | hb
      · simp [ha]
      · have h2 : startsTicks2 (b :: c :: rest) = false := by
          simp [startsTicks2, hb]
        simp [startsTicks2_stripFences _ h2]
    · have h2 : startsTicks2 (b :: c :: rest) = false := by
        simp [startsTicks2, hc]
      simp [startsTicks2_stripFences _ h2]
  | case4 l h =>
    match l, h with
    | [], _ => simp [stripFences, hasTriple]
    | [a], _ => simp [stripFences, hasTriple]
    | [a, b], _ => simp [stripFences, hasTriple]
    | a :: b :: c :: rest, h => exact absurd rfl (h a b c rest)

theorem ticks3_data : "```".data = [tickChar, tickChar, tickChar] := by decide

theorem beq_comm_char (a b : Char) : (a == b) = (b == a) := by
  rcases instDecidableEqChar a b with h | h
  · simp [h, Ne.symm h, beq_eq_false_iff_ne]
  · subst h; rfl

theorem isPrefix_ticks3 (c : Char) (rest : List Char) :
    ([tickChar, tickChar, tickChar].isPrefixOf (c :: rest)) =
      ((c == tickChar) && startsTicks2 rest) := by
  match rest with
  | [] => simp [List.isPrefixOf, startsTicks2]
  | [x] => simp [List.isPrefixOf, startsTicks2]
  | x :: y :: ys =>
    simp only [List.isPrefixOf, startsTicks2, Bool.and_true]
    rw [beq_comm_char tickChar c, beq_comm_char tickChar x, beq_comm_char tickChar y]

theorem containsSub_ticks_eq_hasTriple (l : List Char) :
    containsSub ("```".data) l = hasTriple l := by
  induction l with
  | nil => simp [containsSub, hasTriple, ticks3_data]
  | cons c rest ih =>
    rw [containsSub, ticks3_data, isPrefix_ticks3, ← ticks3_data, ih, hasTriple_cons]

theorem containsSub_html_imp_triple (l : List Char)
    (h : containsSub ("```html".data) l = true) : hasTriple l = true := by
  induction l with
  | nil => simp [containsSub] at h
  | cons c rest ih =>
    rw [containsSub, Bool.or_eq_true] at h
    rcases h with h | h
    · have hd : "```html".data =
          tickChar :: tickChar :: tickChar :: 'h' :: 't' :: 'm' :: 'l' :: [] := by decide
      rw [hd] at h
      rcases rest with _ | ⟨x, rest2⟩
      · simp [List.isPrefixOf] at h
      · rcases rest2 with _ | ⟨y, ys⟩
        · simp [List.isPrefixOf] at h
        · simp only [List.isPrefixOf, Bool.and_eq_true, beq_iff_eq] at h
          rcases h with ⟨hc, hx, hy, _⟩
          simp [hasTriple, ← hc, ← hx, ← hy]
    · rw [hasTriple_cons, ih h]
      simp

/-! ## Claim theorems -/

/-- **C10** — Fence stripping is global, not wrapping-only, in some
variants: in the variants that clean with a global regex replace
(`src/scripts/generate-html.js` line 87 and `src/unnamed/part_002`
line 355), every occurrence of the fence substrings anywhere in the
returned text is deleted — the cleaned output never contains three
consecutive backticks (hence neither a backtick-html fence), so code
fences that legitimately appear inside the document body are destroyed
too, as the concrete document with an interior fence shows; the
anchored-regex variant (`src/scripts/generate-html.js` lines 269-270)
leaves that interior fence intact and removes only a wrapping
leading/trailing delimiter pair. -/
theorem global_fence_strip_removes_all_anchored_keeps_interior :
    (∀ s : String,
      containsStr (cleanGlobal s) "```" = false ∧
      containsStr (cleanGlobal s) "```html" = false) ∧
    cleanGlobal "<html>\nExample:\n```\ncode()\n```\n</html>" =
      "<html>\nExample:\ncode()\n</html>" ∧
    cleanAnchored "<html>\nExample:\n```\ncode()\n```\n</html>" =
      "<html>\nExample:\n```\ncode()\n```\n</html>" ∧
    containsStr
      (cleanAnchored "<html>\nExample:\n```\ncode()\n```\n</html>") "```" = true ∧
    cleanGlobal "```html\n<html>hi</html>\n```" = "<html>hi</html>\n" ∧
    cleanAnchored "```html\n<html>hi</html>\n```" = "<html>hi</html>" := by
  refine ⟨fun s => ⟨?_, ?_⟩, by decide, by decide, by decide, by decide, by decide⟩
  · show containsSub ("```".data) (stripFences (stripHtmlFences s.data)) = false
    rw [containsSub_ticks_eq_hasTriple]
    exact hasTriple_stripFences _
  · show containsSub ("```html".data) (stripFences (stripHtmlFences s.data)) = false
    cases hq : containsSub ("```html".data) (stripFences (stripHtmlFences s.data))
    · rfl
    · have h1 := containsSub_html_imp_triple _ hq
      rw [hasTriple_stripFences] at h1
      exact absurd h1 (by simp)

/-- Witness for C10 at a concrete input: the global cleanup deletes an
interior fence of a concrete document. -/
theorem global_fence_strip_removes_all_anchored_keeps_interior_witness :
    containsStr (cleanGlobal "<p>a</p>\n```\nb\n```\n<p>c</p>") "```" = false :=
  (global_fence_strip_removes_all_anchored_keeps_interior.1
    "<p>a</p>\n```\nb\n```\n<p>c</p>").1

/-- **C1** (code bug) — Ladder exhaustion is impossible: the configured
ceiling ladder has three rungs `[65000, 32000, 16000]` and the loop is
written to walk all of them (`i < tokenLimits.length`), but
`maxRetries = 2` stops every run after at most two generation attempts,
so the 16000 rung is dead code.  At the failing input — a record whose
every fetch is an HTTP 400 whose body indicates a token problem — the
final outcome is indeed `Failure`, and the two attempts made do use
strictly descending ceilings, but only 2 attempts are made where the
claim requires `len(ladder) = 3`. -/
theorem ladder_never_exhausted_two_attempts_bug :
    tokenLimits = [65000, 32000, 16000] ∧
    (∀ env : Nat → FetchResult, (runAttempts env).1.length ≤ 2) ∧
    processScripts (fun _ => FetchResult.httpError 400 "Request exceeds token limit")
        "p.json" ⟨some "Acme", none, none⟩ =
      (RecResult.err "p.json" "Gemini API error: 400", [], [65000, 32000]) ∧
    (processScripts (fun _ => FetchResult.httpError 400 "Request exceeds token limit")
        "p.json" ⟨some "Acme", none, none⟩).2.2.length ≠ tokenLimits.length := by
  refine ⟨rfl, ?_, by decide, by decide⟩
  intro env
  rcases henv0 : env 0 with r0 | ⟨s0, t0⟩ | m0
  · simp [runAttempts, tokenLimits, runLadder, henv0]
  · rcases henv1 : env 1 with r1 | ⟨s1, t1⟩ | m1
    · by_cases ht0 : isTokenIssue s0 t0 <;>
        simp [runAttempts, tokenLimits, runLadder, henv0, henv1, ht0, maxRetries]
    · by_cases ht0 : isTokenIssue s0 t0 <;> by_cases ht1 : isTokenIssue s1 t1 <;>
        simp [runAttempts, tokenLimits, runLadder, henv0, henv1, ht0, ht1, maxRetries]
    · by_cases ht0 : isTokenIssue s0 t0 <;>
        simp [runAttempts, tokenLimits, runLadder, henv0, henv1, ht0, maxRetries]
  · rcases henv1 : env 1 with r1 | ⟨s1, t1⟩ | m1
    · simp [runAttempts, tokenLimits, runLadder, henv0, henv1, maxRetries]
    · by_cases ht1 : isTokenIssue s1 t1 <;>
        simp [runAttempts, tokenLimits, runLadder, henv0, henv1, ht1, maxRetries]
    · simp [runAttempts, tokenLimits, runLadder, henv0, henv1, maxRetries]

/-- Witness for C1's universal conjunct at a concrete environment. -/
theorem ladder_never_exhausted_two_attempts_bug_witness :
    (runAttempts (fun _ => FetchResult.httpError 400 "token limit")).1.length ≤ 2 :=
  ladder_never_exhausted_two_attempts_bug.2.1
    (fun _ => FetchResult.httpError 400 "token limit")

/-- **C2** (counterexample) — A record whose first generation attempt is
`Rejected` (an HTTP 500 whose body carries no size indication) is
nevertheless retried once with the next smaller ceiling: two generation
attempts are made (65000 then 32000), not one — the generic catch clause
of the retry loop (`src/scripts/generate-html.js` lines 227-235) retries
any first-attempt error. -/
theorem rejected_first_attempt_retried_counterexample :
    isRejectedFetch (FetchResult.httpError 500 "Internal Server Error") = true ∧
    processScripts (fun _ => FetchResult.httpError 500 "Internal Server Error")
        "r.json" ⟨some "Acme", none, none⟩ =
      (RecResult.err "r.json" "Gemini API error: 500", [], [65000, 32000]) ∧
    (processScripts (fun _ => FetchResult.httpError 500 "Internal Server Error")
        "r.json" ⟨some "Acme", none, none⟩).2.2.length ≠ 1 :=
  ⟨by decide, by decide, by decide⟩

/-- **C2** (amended) — A record whose attempts are classified `Rejected`
(non-size HTTP error or network failure) makes exactly *two* generation
attempts — the orchestrator retries any first-attempt error once at the
next smaller ceiling before the record fails; only a policy block
(`finishReason = SAFETY` on an HTTP-successful response) stops after
exactly one generation attempt, with the record a `Failure` and no
artifact written. -/
theorem rejected_two_attempts_safety_one_attempt :
    (∀ (env : Nat → FetchResult) (f : String) (pd : ProposalData),
      isRejectedFetch (env 0) = true → isRejectedFetch (env 1) = true →
      ∃ e, processScripts env f pd = (RecResult.err f e, [], [65000, 32000])) ∧
    (∀ (env : Nat → FetchResult) (f : String) (pd : ProposalData)
      (res : GeminiResponse),
      env 0 = FetchResult.ok res → res.hasContent = true →
      res.finishReason = some "SAFETY" →
      processScripts env f pd =
        (RecResult.err f "Content was blocked by safety filters", [], [65000])) := by
  constructor
  · intro env f pd h0 h1
    rcases henv0 : env 0 with r0 | ⟨s0, t0⟩ | m0
    · rw [henv0] at h0; simp [isRejectedFetch] at h0
    · have ht0 : isTokenIssue s0 t0 = false := by
        rw [henv0] at h0; simpa [isRejectedFetch] using h0
      rcases henv1 : env 1 with r1 | ⟨s1, t1⟩ | m1
      · rw [henv1] at h1; simp [isRejectedFetch] at h1
      · have ht1 : isTokenIssue s1 t1 = false := by
          rw [henv1] at h1; simpa [isRejectedFetch] using h1
        exact ⟨geminiApiErrorMsg s1, by
          simp [processScripts, runAttempts, tokenLimits, runLadder, henv0, henv1,
            ht0, ht1, maxRetries]⟩
      · exact ⟨m1, by
          simp [processScripts, runAttempts, tokenLimits, runLadder, henv0, henv1,
            ht0, maxRetries]⟩
    · rcases henv1 : env 1 with r1 | ⟨s1, t1⟩ | m1
      · rw [henv1] at h1; simp [isRejectedFetch] at h1
      · have ht1 : isTokenIssue s1 t1 = false := by
          rw [henv1] at h1; simpa [isRejectedFetch] using h1
        exact ⟨geminiApiErrorMsg s1, by
          simp [processScripts, runAttempts, tokenLimits, runLadder, henv0, henv1,
            ht1, maxRetries]⟩
      · exact ⟨m1, by
          simp [processScripts, runAttempts, tokenLimits, runLadder, henv0, henv1,
            maxRetries]⟩
  · intro env f pd res h0 hc hfr
    simp [processScripts, runAttempts, tokenLimits, runLadder, h0, hc, hfr]

/-- Witness for C2's amended theorem: both conjuncts applied at concrete
environments, every hypothesis discharged by evaluation. -/
theorem rejected_two_attempts_safety_one_attempt_witness :
    (∃ e, processScripts (fun _ => FetchResult.httpError 503 "Service Unavailable")
        "w.json" ⟨some "Acme", none, none⟩ =
        (RecResult.err "w.json" e, [], [65000, 32000])) ∧
    processScripts (fun _ => FetchResult.ok ⟨true, some "SAFETY", "blocked"⟩)
        "s.json" ⟨some "Acme", none, none⟩ =
      (RecResult.err "s.json" "Content was blocked by safety filters", [], [65000]) :=
  ⟨rejected_two_attempts_safety_one_attempt.1
      (fun _ => FetchResult.httpError 503 "Service Unavailable")
      "w.json" ⟨some "Acme", none, none⟩ (by decide) (by decide),
   rejected_two_attempts_safety_one_attempt.2
      (fun _ => FetchResult.ok ⟨true, some "SAFETY", "blocked"⟩)
      "s.json" ⟨some "Acme", none, none⟩ ⟨true, some "SAFETY", "blocked"⟩
      rfl rfl rfl⟩

/-- **C5** (counterexample) — A record whose single attempt completes
with `finishReason = MAX_TOKENS` but whose truncated text fails the HTML
shape check is *not* written: the record ends in `Failure("Invalid HTML
output from Gemini")` with no artifact write, contradicting the claim
that the returned text is always written as the artifact. -/
theorem max_tokens_invalid_html_not_written_counterexample :
    processScripts
        (fun _ => FetchResult.ok ⟨true, some "MAX_TOKENS", "TRUNCATED PARTIAL OUTPUT"⟩)
        "t.json" ⟨some "Acme", none, none⟩ =
      (RecResult.err "t.json" "Invalid HTML output from Gemini", [], [65000]) ∧
    htmlValidScripts (cleanAnchored "TRUNCATED PARTIAL OUTPUT") = false :=
  ⟨by decide, by decide⟩

/-- **C5** (amended) — Truncation is surfaced, not retried: a record whose
attempt completes (HTTP-ok) with `finishReason = MAX_TOKENS` makes exactly
one generation attempt; *provided the normalized text passes the
structural HTML check*, the (possibly incomplete) text is written as the
artifact and the per-record result carries `finishReason = "MAX_TOKENS"`;
if the check fails, the record is a `Failure` and nothing is written. -/
theorem max_tokens_single_attempt_flagged :
    ∀ (env : Nat → FetchResult) (f : String) (pd : ProposalData)
      (res : GeminiResponse),
    env 0 = FetchResult.ok res → res.hasContent = true →
    res.finishReason = some "MAX_TOKENS" →
    (processScripts env f pd).2.2 = [65000] ∧
    (htmlValidScripts (cleanAnchored res.text) = true →
      processScripts env f pd =
        (RecResult.ok
          { input := f
            output := deriveOutputFilename f pd
            url := urlBase ++ deriveOutputFilename f pd
            finishReason := "MAX_TOKENS"
            hasLogo := containsStr (cleanAnchored res.text) "iexcel_logo.png"
            hasTagline := containsStr (cleanAnchored res.text) "Digital Marketing" ||
              containsStr (cleanAnchored res.text) "Focused On Growth" },
          [(deriveOutputFilename f pd, cleanAnchored res.text)], [65000])) ∧
    (htmlValidScripts (cleanAnchored res.text) = false →
      processScripts env f pd =
        (RecResult.err f "Invalid HTML output from Gemini", [], [65000])) := by
  intro env f pd res h0 hc hfr
  have hrun : runAttempts env = ([65000], Except.ok (some res)) := by
    simp [runAttempts, tokenLimits, runLadder, h0]
  refine ⟨?_, ?_, ?_⟩
  · by_cases hv : htmlValidScripts (cleanAnchored res.text) <;>
      simp [processScripts, hrun, hc, hfr, hv]
  · intro hv
    simp [processScripts, hrun, hc, hfr, hv]
  · intro hv
    simp [processScripts, hrun, hc, hfr, hv]

/-- Witness for C5's amended theorem: a truncated but structurally valid
response is written and flagged, after exactly one attempt. -/
theorem max_tokens_single_attempt_flagged_witness :
    processScripts
        (fun _ => FetchResult.ok ⟨true, some "MAX_TOKENS", "<html><p>partial"⟩)
        "t.json" ⟨some "Acme", none, none⟩ =
      (RecResult.ok
        { input := "t.json"
          output := "acme.html"
          url := urlBase ++ "acme.html"
          finishReason := "MAX_TOKENS"
          hasLogo := false
          hasTagline := false },
        [("acme.html", "<html><p>partial")], [65000]) :=
  (max_tokens_single_attempt_flagged
      (fun _ => FetchResult.ok ⟨true, some "MAX_TOKENS", "<html><p>partial"⟩)
      "t.json" ⟨some "Acme", none, none⟩ ⟨true, some "MAX_TOKENS", "<html><p>partial"⟩
      rfl rfl rfl).2.1 (by decide)

/-- **C6** (counterexample) — In the cited `src/unnamed/part_001` variant
(lines 279-293), a cleanly completed response whose text fails the HTML
shape check is only *warned about*: the artifact is written anyway and the
per-record result is a success — contradicting the claim that no artifact
is written for a record with `InvalidOutputShape`. -/
theorem part001_writes_invalid_html_counterexample :
    htmlValid001 "not an html document" = false ∧
    process001 (fun _ => FetchResult.ok ⟨true, some "STOP", "not an html document"⟩)
        "b.json" ⟨some "Beta Corp", none, none⟩ =
      Except.ok
        ({ input := "b.json", output := "betacorp.html",
           url := urlBase ++ "betacorp.html", size := 20,
           finishReason := some "STOP" },
         "betacorp.html", "not an html document") :=
  ⟨by decide, rfl⟩

/-- **C6** (amended) — Invalid output shape is terminal and atomic in the
`src/scripts/generate-html.js` variant: a cleanly completed response whose
normalized text fails the structural check yields
`Failure("Invalid HTML output from Gemini")` with no artifact write (the
output store is untouched).  In the `src/unnamed/part_001` variant the
same condition only logs a warning: the record succeeds and the artifact
is written at the derived location regardless. -/
theorem invalid_shape_terminal_scripts_warn_only_part001 :
    (∀ (env : Nat → FetchResult) (f : String) (pd : ProposalData)
      (res : GeminiResponse),
      env 0 = FetchResult.ok res → res.hasContent = true →
      res.finishReason ≠ some "SAFETY" →
      htmlValidScripts (cleanAnchored res.text) = false →
      processScripts env f pd =
        (RecResult.err f "Invalid HTML output from Gemini", [], [65000])) ∧
    (∀ (env : Nat → FetchResult) (f : String) (pd : ProposalData)
      (res : GeminiResponse),
      env 0 = FetchResult.ok res → res.hasContent = true →
      htmlValid001 (cleanExactWrap res.text) = false →
      process001 env f pd =
        Except.ok
          ({ input := f, output := deriveOutputFilename001 f pd,
             url := urlBase ++ deriveOutputFilename001 f pd,
             size := (cleanExactWrap res.text).utf8ByteSize,
             finishReason := res.finishReason },
           deriveOutputFilename001 f pd, cleanExactWrap res.text)) := by
  constructor
  · intro env f pd res h0 hc hfr hv
    have hrun : runAttempts env = ([65000], Except.ok (some res)) := by
      simp [runAttempts, tokenLimits, runLadder, h0]
    simp [processScripts, hrun, hc, hfr, hv]
  · intro env f pd res h0 hc _hv
    simp [process001, h0, hc]

/-- Witness for C6's amended theorem: both variants applied to concrete
invalid outputs. -/
theorem invalid_shape_terminal_scripts_warn_only_part001_witness :
    processScripts (fun _ => FetchResult.ok ⟨true, some "STOP", "just words"⟩)
        "w.json" ⟨some "Acme", none, none⟩ =
      (RecResult.err "w.json" "Invalid HTML output from Gemini", [], [65000]) ∧
    process001 (fun _ => FetchResult.ok ⟨true, some "STOP", "plain text"⟩)
        "v.json" ⟨some "Acme", none, none⟩ =
      Except.ok
        ({ input := "v.json", output := "acme.html",
           url := urlBase ++ "acme.html", size := 10,
           finishReason := some "STOP" },
         "acme.html", "plain text") :=
  ⟨invalid_shape_terminal_scripts_warn_only_part001.1
      (fun _ => FetchResult.ok ⟨true, some "STOP", "just words"⟩)
      "w.json" ⟨some "Acme", none, none⟩ ⟨true, some "STOP", "just words"⟩
      rfl rfl (by decide) (by decide),
   invalid_shape_terminal_scripts_warn_only_part001.2
      (fun _ => FetchResult.ok ⟨true, some "STOP", "plain text"⟩)
      "v.json" ⟨some "Acme", none, none⟩ ⟨true, some "STOP", "plain text"⟩
      rfl rfl (by decide)⟩

/-- **C3** (counterexample) — In the cited `src/unnamed/part_000` `main`
(lines 88-111) the batch loop has no per-record try/catch: when the middle
record of three fails terminally, the loop aborts, only the first record
has a result, the third record is never processed, and the summary is
never written — so not every one of the N records receives a per-record
result. -/
theorem part000_batch_aborts_counterexample :
    runBatch000
        (fun f => if f = "b.json" then FetchResult.httpError 500 "boom"
          else FetchResult.ok ⟨true, some "STOP", "<html>ok</html>"⟩)
        (fun _ => ⟨some "Org", none, none⟩)
        ["a.json", "b.json", "c.json"] [] [] =
      { results := [{ input := "a.json", output := "org.html",
                      url := urlBase ++ "org.html" }],
        summaryWritten := false, exitCode := 1,
        store := [("org.html", "<html>ok</html>")] } ∧
    (runBatch000
        (fun f => if f = "b.json" then FetchResult.httpError 500 "boom"
          else FetchResult.ok ⟨true, some "STOP", "<html>ok</html>"⟩)
        (fun _ => ⟨some "Org", none, none⟩)
        ["a.json", "b.json", "c.json"] [] []).results.length ≠
      ["a.json", "b.json", "c.json"].length :=
  ⟨by decide, by decide⟩

/-- **C3** (amended) — Batch isolation holds in the
`src/scripts/generate-html.js` variant (per-record try/catch, lines
328-341): over any run, the per-record result list is exactly the map of
the per-record pipeline over the selected files — every one of the N
records receives exactly one result, in order, and each entry is a
function of that record's own file, data and fetch behaviour alone, so a
terminal failure of record k cannot affect any other record.  (In the
`src/unnamed/part_000` variant, by contrast, a terminal failure aborts
the loop.) -/
theorem scripts_batch_isolation (env : String → Nat → FetchResult)
    (pds : String → ProposalData) (files : List String) (store : Store) :
    (runScriptsBatch env pds files store).1 =
      files.map (fun f => (processScripts (env f) f (pds f)).1) ∧
    (runScriptsBatch env pds files store).1.length = files.length := by
  have hmap : ∀ (fs : List String) (st : Store),
      (runScriptsBatch env pds fs st).1 =
        fs.map (fun f => (processScripts (env f) f (pds f)).1) := by
    intro fs
    induction fs with
    | nil => intro st; simp [runScriptsBatch]
    | cons f rest ih => intro st; simp [runScriptsBatch, ih]
  exact ⟨hmap files store, by rw [hmap files store, List.length_map]⟩

/-- Witness for C3's amended theorem at a concrete three-record run in
which the middle record fails. -/
theorem scripts_batch_isolation_witness :
    (runScriptsBatch
        (fun f _ => if f = "b.json" then FetchResult.httpError 500 "boom"
          else FetchResult.ok ⟨true, some "STOP", "<html>ok</html>"⟩)
        (fun _ => ⟨some "Org", none, none⟩)
        ["a.json", "b.json", "c.json"] []).1 =
      ["a.json", "b.json", "c.json"].map
        (fun f => (processScripts
          ((fun f _ => if f = "b.json" then FetchResult.httpError 500 "boom"
            else FetchResult.ok ⟨true, some "STOP", "<html>ok</html>"⟩) f)
          f ((fun _ => (⟨some "Org", none, none⟩ : ProposalData)) f)).1) ∧
    (runScriptsBatch
        (fun f _ => if f = "b.json" then FetchResult.httpError 500 "boom"
          else FetchResult.ok ⟨true, some "STOP", "<html>ok</html>"⟩)
        (fun _ => ⟨some "Org", none, none⟩)
        ["a.json", "b.json", "c.json"] []).1.length =
      ["a.json", "b.json", "c.json"].length :=
  scripts_batch_isolation
    (fun f _ => if f = "b.json" then FetchResult.httpError 500 "boom"
      else FetchResult.ok ⟨true, some "STOP", "<html>ok</html>"⟩)
    (fun _ => ⟨some "Org", none, none⟩)
    ["a.json", "b.json", "c.json"] []

/-- **C4** (counterexample) — In the cited `src/unnamed/part_000` `main`,
a run with one failing record exits non-zero *without* writing the run
summary — contradicting the claim that the summary is written before
termination in every case. -/
theorem part000_no_summary_on_failure_counterexample :
    runBatch000 (fun _ => FetchResult.httpError 503 "Service Unavailable")
        (fun _ => ⟨some "Org", none, none⟩) ["x.json"] [] [] =
      { results := [], summaryWritten := false, exitCode := 1, store := [] } :=
  by decide

/-- **C4** (amended) — In the `src/scripts/generate-html.js` variant the
claim holds: the summary is always written (also on overall failure) and
holds exactly the per-record results, and the process exits non-zero iff
at least one record ended in `Failure` (so an empty selection exits 0).
In the `src/unnamed/part_000` variant a record failure terminates the run
with exit 1 and no summary. -/
theorem scripts_exit_iff_failure_summary_always
    (env : String → Nat → FetchResult) (pds : String → ProposalData)
    (files : List String) (store : Store) :
    (scriptsMain env pds files store).1.summaryWritten = true ∧
    (scriptsMain env pds files store).1.summary =
      (runScriptsBatch env pds files store).1 ∧
    ((scriptsMain env pds files store).1.exitCode = 0 ↔
      (runScriptsBatch env pds files store).1.any RecResult.isErr = false) ∧
    ((scriptsMain env pds files store).1.exitCode = 1 ↔
      (runScriptsBatch env pds files store).1.any RecResult.isErr = true) ∧
    (scriptsMain env pds [] store).1.exitCode = 0 := by
  refine ⟨rfl, rfl, ?_, ?_, by simp [scriptsMain, runScriptsBatch]⟩ <;>
    cases h : (runScriptsBatch env pds files store).1.any RecResult.isErr <;>
    simp [scriptsMain, h]

/-- Witness for C4's amended theorem at a concrete failing run. -/
theorem scripts_exit_iff_failure_summary_always_witness :
    (scriptsMain (fun _ _ => FetchResult.httpError 500 "boom")
        (fun _ => ⟨some "Org", none, none⟩) ["a.json"] []).1.summaryWritten = true ∧
    (scriptsMain (fun _ _ => FetchResult.httpError 500 "boom")
        (fun _ => ⟨some "Org", none, none⟩) ["a.json"] []).1.summary =
      (runScriptsBatch (fun _ _ => FetchResult.httpError 500 "boom")
        (fun _ => ⟨some "Org", none, none⟩) ["a.json"] []).1 ∧
    ((scriptsMain (fun _ _ => FetchResult.httpError 500 "boom")
        (fun _ => ⟨some "Org", none, none⟩) ["a.json"] []).1.exitCode = 0 ↔
      (runScriptsBatch (fun _ _ => FetchResult.httpError 500 "boom")
        (fun _ => ⟨some "Org", none, none⟩) ["a.json"] []).1.any
          RecResult.isErr = false) ∧
    ((scriptsMain (fun _ _ => FetchResult.httpError 500 "boom")
        (fun _ => ⟨some "Org", none, none⟩) ["a.json"] []).1.exitCode = 1 ↔
      (runScriptsBatch (fun _ _ => FetchResult.httpError 500 "boom")
        (fun _ => ⟨some "Org", none, none⟩) ["a.json"] []).1.any
          RecResult.isErr = true) ∧
    (scriptsMain (fun _ _ => FetchResult.httpError 500 "boom")
        (fun _ => ⟨some "Org", none, none⟩) ([] : List String) []).1.exitCode = 0 :=
  scripts_exit_iff_failure_summary_always
    (fun _ _ => FetchResult.httpError 500 "boom")
    (fun _ => ⟨some "Org", none, none⟩) ["a.json"] []

/-- **C7** — Idempotent deterministic naming: the output artifact name is
a pure function of the record (deriving it twice yields the same string);
when the declared organization name is truthy the name is that string
lowercased, stripped of non-alphanumerics, with `.html` appended; when no
organization field is truthy it falls back to the record's identifier
(the source filename with `.json` removed), passed through the same
normalisation, with `.html` appended. -/
theorem derive_name_deterministic_normalized (f : String) (pd : ProposalData) :
    deriveOutputFilename f pd = deriveOutputFilename f pd ∧
    (jsTruthy pd.company_name = true →
      deriveOutputFilename f pd =
        keepAlnum (lowerStr (pd.company_name.getD "")) ++ ".html") ∧
    ((jsTruthy pd.company_name || jsTruthy pd.companyName ||
        jsTruthy pd.company) = false →
      deriveOutputFilename f pd =
        keepAlnum (lowerStr (replaceFirstStr f ".json" "")) ++ ".html") := by
  refine ⟨rfl, ?_, ?_⟩
  · intro h
    rcases hcn : pd.company_name with _ | s1
    · rw [hcn] at h; simp [jsTruthy] at h
    · rw [hcn] at h
      have hne : s1.isEmpty = false := by simpa [jsTruthy] using h
      simp [deriveOutputFilename, companySource, jsOrStr, hcn, hne]
  · intro h
    rw [Bool.or_eq_false_iff, Bool.or_eq_false_iff] at h
    obtain ⟨⟨h1, h2⟩, h3⟩ := h
    have hb1 : jsOrStr pd.company_name = fun b => b := by
      rcases hcn : pd.company_name with _ | s1
      · funext b; simp [jsOrStr]
      · rw [hcn] at h1
        have : s1.isEmpty = true := by simpa [jsTruthy] using h1
        funext b; simp [jsOrStr, this]
    have hb2 : jsOrStr pd.companyName = fun b => b := by
      rcases hcn : pd.companyName with _ | s2
      · funext b; simp [jsOrStr]
      · rw [hcn] at h2
        have : s2.isEmpty = true := by simpa [jsTruthy] using h2
        funext b; simp [jsOrStr, this]
    have hb3 : jsOrStr pd.company = fun b => b := by
      rcases hcn : pd.company with _ | s3
      · funext b; simp [jsOrStr]
      · rw [hcn] at h3
        have : s3.isEmpty = true := by simpa [jsTruthy] using h3
        funext b; simp [jsOrStr, this]
    simp [deriveOutputFilename, companySource, hb1, hb2, hb3]

/-- Witness for C7 at concrete records, one per truthiness branch. -/
theorem derive_name_deterministic_normalized_witness :
    deriveOutputFilename "My Proposal.json" ⟨some "Acme + Co.", none, none⟩ =
      keepAlnum (lowerStr ((some "Acme + Co.").getD "")) ++ ".html" ∧
    deriveOutputFilename "My Proposal.json" ⟨none, none, none⟩ =
      keepAlnum (lowerStr (replaceFirstStr "My Proposal.json" ".json" "")) ++
        ".html" :=
  ⟨(derive_name_deterministic_normalized "My Proposal.json"
      ⟨some "Acme + Co.", none, none⟩).2.1 (by decide),
   (derive_name_deterministic_normalized "My Proposal.json"
      ⟨none, none, none⟩).2.2 (by decide)⟩

/-- **C8** — Changed-mode fallback: when the git diff succeeds but yields
zero changed proposal files, the changed-mode selector selects exactly
the same files, in the same order, as the all-mode selector on an
identical store listing, and it logs the fallback line. -/
theorem changed_mode_empty_falls_back_to_all (out : String)
    (storeFiles : List String) (h : parseChangedOutput out = []) :
    (selectChangedMode (Except.ok out) storeFiles).1 = selectAllMode storeFiles ∧
    (selectChangedMode (Except.ok out) storeFiles).2 =
      [detectedMsg 0, fallbackMsg (selectAllMode storeFiles).length] := by
  constructor <;> simp [selectChangedMode, h]

/-- Witness for C8 at a concrete empty git diff and store listing. -/
theorem changed_mode_empty_falls_back_to_all_witness :
    (selectChangedMode (Except.ok "") ["b.txt", "a.json", "c.json"]).1 =
      selectAllMode ["b.txt", "a.json", "c.json"] ∧
    (selectChangedMode (Except.ok "") ["b.txt", "a.json", "c.json"]).2 =
      [detectedMsg 0,
        fallbackMsg (selectAllMode ["b.txt", "a.json", "c.json"]).length] :=
  changed_mode_empty_falls_back_to_all "" ["b.txt", "a.json", "c.json"] (by decide)

/-- **C9** — Naming collisions overwrite silently: the name derivation is
not injective — organization names differing only in case/punctuation
collide, and names with no alphanumeric characters at all collapse to the
bare `.html` — and when two colliding records occur in one run, the later
record's artifact silently overwrites the earlier one's: the final store
holds the second record's content under the shared name while both
records report success (no error anywhere). -/
theorem naming_collision_last_write_wins :
    deriveOutputFilename "a.json" ⟨some "Acme Corp.", none, none⟩ =
      "acmecorp.html" ∧
    deriveOutputFilename "b.json" ⟨some "ACME-CORP", none, none⟩ =
      "acmecorp.html" ∧
    (some "Acme Corp." : Option String) ≠ some "ACME-CORP" ∧
    deriveOutputFilename "c.json" ⟨some "!!!", none, none⟩ = ".html" ∧
    deriveOutputFilename "d.json" ⟨some "???", none, none⟩ = ".html" ∧
    (runScriptsBatch
        (fun f _ => if f = "a.json"
          then FetchResult.ok ⟨true, some "STOP", "<html>first</html>"⟩
          else FetchResult.ok ⟨true, some "STOP", "<html>second</html>"⟩)
        (fun f => if f = "a.json" then ⟨some "Acme Corp.", none, none⟩
          else ⟨some "ACME-CORP", none, none⟩)
        ["a.json", "b.json"] []).1.any RecResult.isErr = false ∧
    readStore
      (runScriptsBatch
        (fun f _ => if f = "a.json"
          then FetchResult.ok ⟨true, some "STOP", "<html>first</html>"⟩
          else FetchResult.ok ⟨true, some "STOP", "<html>second</html>"⟩)
        (fun f => if f = "a.json" then ⟨some "Acme Corp.", none, none⟩
          else ⟨some "ACME-CORP", none, none⟩)
        ["a.json", "b.json"] []).2 "acmecorp.html" =
      some "<html>second</html>" :=
  ⟨by decide, by decide, by decide, by decide, by decide, by decide, by decide⟩

end IExcel
